import Mathlib

/-!
Verification of the AutomateFlow Tracker dashboard: a shallow embedding of
the pagination/filter state controller (src/App.tsx) and the query builder /
fetch client (src/services/dataverseService.ts), together with theorems
settling the specified properties.

Conventions of the embedding:
- React state hooks become fields of an explicit `AppState` record; each
  event handler becomes a pure transition function on `AppState`.
- The asynchronous fetch is modelled by passing the outcome of the awaited
  network call (`FetchResult`) to the transition; a transition additionally
  reports the network call it issued (if any) as an `Option FetchCall`, so
  that single-flight properties are expressible.
- JavaScript string truthiness (null and the empty string are falsy) is
  embedded explicitly wherever the source relies on it.
-/

/-- The record type of src/types.ts (`Workflow`). Extra dynamic keys of the
TypeScript index signature are irrelevant to the claims and omitted. -/
structure Workflow where
  workflowid : String
  name : String
  createdon : String
  modifiedon : String
  statecode : Int
  statuscode : Int
  uniquename : String
  category : Int
  description : Option String
deriving DecidableEq, Repr

/-- Sort direction of `SortConfig` in src/types.ts. -/
inductive SortDirection where
  | ascending
  | descending
deriving DecidableEq, Repr

/-- `SortConfig` of src/types.ts: nullable key plus direction. -/
structure SortConfig where
  key : Option String
  direction : SortDirection
deriving DecidableEq, Repr

/-- The normalized fetch result (`WorkflowsResponse` of src/types.ts):
records, forward cursor (null when absent), total count, and the exact
request locator used (`requestUrl`). -/
structure WorkflowsResponse where
  workflows : List Workflow
  nextLink : Option String
  totalCount : Nat
  requestUrl : String
deriving DecidableEq, Repr

/-- Outcome of the awaited `fetchWorkflows` call: success with the
normalized response, or failure carrying `some message` when the thrown
value is an `Error` and `none` otherwise (the `err instanceof Error`
distinction in App.tsx). -/
inductive FetchResult where
  | success (data : WorkflowsResponse)
  | failure (msg : Option String)
deriving DecidableEq, Repr

/-- A network call issued by a controller transition: the explicit request
locator passed to `fetchWorkflows` (none for a from-scratch query) and the
`isNewQuery` flag passed to `fetchPageData`. -/
structure FetchCall where
  url : Option String
  isNewQuery : Bool
deriving DecidableEq, Repr

/-- The controller state of App.tsx: the `useState` hooks that the claims
concern (records, loading flag, error display, total count, current page
number, forward cursor `nextLink`, and the cursor stack `pageUrlHistory`). -/
structure AppState where
  workflows : List Workflow
  isLoading : Bool
  error : Option String
  totalCount : Nat
  currentPage : Nat
  nextLink : Option String
  pageUrlHistory : List String
deriving DecidableEq, Repr

/-- The error message composed in the catch branch of `fetchPageData`
(App.tsx lines 141-147). -/
def errorMessage : Option String → String
  | some msg => "Failed to fetch data: " ++ msg ++ ". Please check console for details."
  | none => "An unknown error occurred."

/-- Net effect on the controller state of one complete run of
`fetchPageData` (App.tsx lines 129-151), given the outcome of the awaited
`fetchWorkflows` call. On success the records, total count and forward
cursor are replaced and, for a new query, the page number is reset to 1 and
the cursor stack to the single resolved request locator; the error display
is cleared. On failure only the error display is set. In both cases the
loading flag ends false (the finally block). -/
def fetchPageData (s : AppState) (isNewQuery : Bool) (result : FetchResult) : AppState :=
  match result with
  | .success data =>
      let s2 := { s with workflows := data.workflows
                         totalCount := data.totalCount
                         nextLink := data.nextLink }
      let s3 := if isNewQuery then
                  { s2 with currentPage := 1, pageUrlHistory := [data.requestUrl] }
                else s2
      { s3 with error := none, isLoading := false }
  | .failure msg =>
      { s with error := some (errorMessage msg), isLoading := false }

/-- The new-query trigger: `handleApplyFilters` (or a sort commit) changes
the applied filters, and the effect in App.tsx lines 154-156 runs
`fetchPageData(undefined, true)`. Returns the post-completion state and the
issued network call. -/
def applyNewQuery (s : AppState) (result : FetchResult) : AppState × Option FetchCall :=
  (fetchPageData s true result, some { url := none, isNewQuery := true })

/-- `handleNextPage` (App.tsx lines 182-187). The guard
`if (!nextLink or isLoading) return` drops the trigger when the cursor is
null (or, by JS truthiness, empty) or a fetch is in flight. Otherwise the
page number is incremented and the cursor pushed onto the stack before the
fetch, and `fetchPageData(nextLink, false)` is awaited. -/
def handleNextPage (s : AppState) (result : FetchResult) : AppState × Option FetchCall :=
  match s.nextLink with
  | none => (s, none)
  | some link =>
      if link = "" ∨ s.isLoading then (s, none)
      else
        let s1 := { s with currentPage := s.currentPage + 1
                           pageUrlHistory := s.pageUrlHistory ++ [link] }
        (fetchPageData s1 false result, some { url := some link, isNewQuery := false })

/-- `handlePrevPage` (App.tsx lines 189-200). The guard drops the trigger
when `currentPage <= 1` or a fetch is in flight. Otherwise a copy of the
history is popped, the new top is taken as the previous request locator;
when that locator is present (JS truthiness: defined and non-empty) the
page number is decremented, the popped history committed, and
`fetchPageData(prevPageUrl, false)` awaited. -/
def handlePrevPage (s : AppState) (result : FetchResult) : AppState × Option FetchCall :=
  if s.currentPage ≤ 1 ∨ s.isLoading then (s, none)
  else
    let newHistory := s.pageUrlHistory.dropLast
    match newHistory.getLast? with
    | none => (s, none)
    | some prevPageUrl =>
        if prevPageUrl = "" then (s, none)
        else
          let s1 := { s with currentPage := s.currentPage - 1
                             pageUrlHistory := newHistory }
          (fetchPageData s1 false result, some { url := some prevPageUrl, isNewQuery := false })

/-- One external trigger of the controller together with the outcome its
fetch (if issued) would have. -/
inductive Trigger where
  | newQuery (result : FetchResult)
  | nextPage (result : FetchResult)
  | prevPage (result : FetchResult)
deriving DecidableEq, Repr

/-- The controller transition relation: dispatch a trigger to its handler. -/
def step (s : AppState) : Trigger → AppState × Option FetchCall
  | .newQuery r => applyNewQuery s r
  | .nextPage r => handleNextPage s r
  | .prevPage r => handlePrevPage s r

/-- The single-quote character, written via its code point. -/
def quoteChar : Char := Char.ofNat 39

/-- A one-character string holding a single quote. -/
def squote : String := String.mk [quoteChar]

/-- The global regex replace `searchTerm.replace(/'/g, "''")` of
dataverseService.ts: every single-quote character is doubled, all other
characters pass through. -/
def sanitizeSearch : List Char → List Char
  | [] => []
  | c :: rest =>
      (if c = quoteChar then [quoteChar, quoteChar] else [c]) ++ sanitizeSearch rest

/-- The status filter clause pushed when `status !== null`. -/
def statusClause (status : Int) : String :=
  "statecode eq " ++ toString status

/-- The text-search filter clause pushed when `searchTerm` is truthy, with
the sanitized term interpolated between single quotes in both `contains`
calls. -/
def searchClause (searchTerm : String) : String :=
  let sanitized := String.mk (sanitizeSearch searchTerm.data)
  "(contains(name, " ++ squote ++ sanitized ++ squote ++
    ") or contains(uniquename, " ++ squote ++ sanitized ++ squote ++ "))"

/-- The category filter clause pushed when `category !== null && category >= 0`. -/
def categoryClause (category : Int) : String :=
  "category eq " ++ toString category

/-- The `filterClauses` array built in `fetchWorkflows`
(dataverseService.ts lines 117-127): status clause when status is non-null,
search clause when the search term is truthy (non-empty), category clause
when category is non-null and nonnegative, in that order. -/
def buildFilterClauses (searchTerm : String) (category : Option Int) (status : Option Int) :
    List String :=
  (match status with
   | some st => [statusClause st]
   | none => []) ++
  (if searchTerm = "" then [] else [searchClause searchTerm]) ++
  (match category with
   | some c => if 0 ≤ c then [categoryClause c] else []
   | none => [])

/-- The `$filter` query parameter: the clauses joined with " and ", appended
only when at least one clause exists (dataverseService.ts lines 129-131). -/
def filterParam (searchTerm : String) (category : Option Int) (status : Option Int) :
    Option String :=
  let clauses := buildFilterClauses searchTerm category status
  if clauses = [] then none else some (String.intercalate " and " clauses)

/-- The `$orderby` query parameter (dataverseService.ts lines 133-138):
when `sortConfig.key` is truthy (non-null and non-empty), the key followed
by `asc` or `desc` according to the direction; otherwise the stable default
`modifiedon desc`. -/
def buildOrderby (sortConfig : SortConfig) : String :=
  match sortConfig.key with
  | some k =>
      if k = "" then "modifiedon desc"
      else
        let direction := match sortConfig.direction with
          | .ascending => "asc"
          | .descending => "desc"
        k ++ " " ++ direction
  | none => "modifiedon desc"

/-- Scanner for a single-quoted literal body in the query language, starting
just after the opening quote: a doubled quote denotes one literal quote
character, a lone quote terminates the literal. Returns the decoded literal
and the remaining input, or none if the literal is unterminated. This is the
reader against which non-splittability of the sanitized term is stated. -/
def scanQuoted : List Char → Option (List Char × List Char)
  | [] => none
  | [c] => if c = quoteChar then some ([], []) else none
  | c :: c2 :: rest =>
      if c = quoteChar then
        if c2 = quoteChar then
          (scanQuoted rest).map (fun p => (quoteChar :: p.1, p.2))
        else some ([], c2 :: rest)
      else
        (scanQuoted (c2 :: rest)).map (fun p => (c :: p.1, p.2))

/-- A JSON value as produced by `JSON.parse`, for modelling the token
endpoint response body. -/
inductive Json where
  | null
  | bool (b : Bool)
  | num (n : Int)
  | str (s : String)
  | arr (elems : List Json)
  | obj (fields : List (String × Json))

/-- Property access `data.<name>` on a parsed JSON value: defined only on
objects, first binding wins. -/
def Json.getField : Json → String → Option Json
  | .obj fields, name => fields.lookup name
  | _, _ => none

/-- The check `data && typeof data === 'object'`: true exactly for objects
and arrays (JS arrays have typeof object; null is falsy). -/
def Json.objectTruthy : Json → Bool
  | .obj _ => true
  | .arr _ => true
  | _ => false

/-- The check `typeof data.<name> === 'string' && data.<name>` of
getAuthToken: the field is present, a string, and non-empty. -/
def Json.getTokenField (j : Json) (name : String) : Option String :=
  match j.getField name with
  | some (.str t) => if t = "" then none else some t
  | _ => none

/-- The JavaScript `String.prototype.trim` call on the response text:
whitespace is removed from both ends. -/
def trimString (s : String) : String :=
  String.mk
    (((s.data.dropWhile Char.isWhitespace).reverse.dropWhile Char.isWhitespace).reverse)

/-- The body-interpretation logic of `getAuthToken` (dataverseService.ts
lines 28-51), given the raw response text and the outcome of
`JSON.parse(responseText)` (`none` when parsing throws). A parsed object
with a truthy string `token` field yields that field; otherwise a truthy
string `accessToken` field yields that field; in every other case the raw
text is returned trimmed of surrounding whitespace. -/
def parseAuthToken (responseText : String) (parsed : Option Json) : String :=
  match parsed with
  | some data =>
      if data.objectTruthy then
        match data.getTokenField "token" with
        | some t => t
        | none =>
            match data.getTokenField "accessToken" with
            | some t => t
            | none => trimString responseText
      else trimString responseText
  | none => trimString responseText

/-! ## Helper lemmas -/

/-- On a failed fetch, `fetchPageData` only sets the error display and
clears the loading flag. -/
theorem fetchPageData_failure_eq (s : AppState) (b : Bool) (m : Option String) :
    fetchPageData s b (.failure m) =
      { s with error := some (errorMessage m), isLoading := false } := rfl

/-- On a successful non-new-query fetch, `fetchPageData` leaves the page
number and cursor stack untouched. -/
theorem fetchPageData_success_not_new (s : AppState) (data : WorkflowsResponse) :
    (fetchPageData s false (.success data)).currentPage = s.currentPage ∧
    (fetchPageData s false (.success data)).pageUrlHistory = s.pageUrlHistory :=
  ⟨rfl, rfl⟩

/-! ## Claim theorems -/

/-- C10: For every fetch (initial, new-query, next-page, or previous-page)
that fails, the run of `fetchPageData` leaves the displayed record list,
the total count, the forward cursor, the page number and the cursor stack
exactly as they were (hence at the values from the last successful fetch);
only the error display and the loading flag are written. -/
theorem fetchPageData_failure_frame (s : AppState) (isNewQuery : Bool) (msg : Option String) :
    (fetchPageData s isNewQuery (.failure msg)).workflows = s.workflows ∧
    (fetchPageData s isNewQuery (.failure msg)).totalCount = s.totalCount ∧
    (fetchPageData s isNewQuery (.failure msg)).nextLink = s.nextLink ∧
    (fetchPageData s isNewQuery (.failure msg)).currentPage = s.currentPage ∧
    (fetchPageData s isNewQuery (.failure msg)).pageUrlHistory = s.pageUrlHistory ∧
    (fetchPageData s isNewQuery (.failure msg)).error = some (errorMessage msg) ∧
    (fetchPageData s isNewQuery (.failure msg)).isLoading = false := by
  refine ⟨rfl, rfl, rfl, rfl, rfl, rfl, rfl⟩

/-- C3: Applying a new FilterSet (or committing a new SortSpec) triggers a
fetch with no explicit cursor, and when that fetch completes successfully
the page number is 1 and the cursor stack holds exactly the resolved
request locator of the fetch, regardless of the prior pagination state. -/
theorem applyNewQuery_resets_pagination (s : AppState) (data : WorkflowsResponse) :
    (applyNewQuery s (.success data)).2 = some { url := none, isNewQuery := true } ∧
    ((applyNewQuery s (.success data)).1).currentPage = 1 ∧
    ((applyNewQuery s (.success data)).1).pageUrlHistory = [data.requestUrl] := by
  refine ⟨rfl, ?_, ?_⟩ <;> simp [applyNewQuery, fetchPageData]

/-- C9: While a fetch is in flight (`isLoading` true), a next-page or
previous-page trigger is dropped: no network call is issued and the state
is returned unchanged. -/
theorem inflight_triggers_ignored (s : AppState) (r : FetchResult)
    (h : s.isLoading = true) :
    handleNextPage s r = (s, none) ∧ handlePrevPage s r = (s, none) := by
  constructor
  · cases hnl : s.nextLink with
    | none => simp [handleNextPage, hnl]
    | some link => simp [handleNextPage, hnl, h]
  · simp [handlePrevPage, h]

/-- A concrete state with a fetch in flight, for the C9 witness. -/
def inflightState : AppState :=
  { workflows := [], isLoading := true, error := none, totalCount := 7,
    currentPage := 2, nextLink := some "B", pageUrlHistory := ["A", "B"] }

/-- Witness for C9 at a concrete in-flight state. -/
theorem inflight_triggers_ignored_witness :
    inflightState.isLoading = true ∧
    handleNextPage inflightState (.failure none) = (inflightState, none) ∧
    handlePrevPage inflightState (.failure none) = (inflightState, none) :=
  ⟨rfl, (inflight_triggers_ignored inflightState (.failure none) rfl).1,
    (inflight_triggers_ignored inflightState (.failure none) rfl).2⟩

/-- C1 (code evaluation): accepting a next-page trigger commits the page
increment and the cursor push before the fetch, and a failed fetch does not
roll them back: from page 1 with stack [pageA] and cursor pageB, a failed
next-page trigger ends at page 2 with stack [pageA, pageB]; only the
forward cursor keeps its pre-trigger value. -/
theorem nextPage_failure_commits_pagination :
    (handleNextPage
        { workflows := [], isLoading := false, error := none, totalCount := 120,
          currentPage := 1, nextLink := some "pageB", pageUrlHistory := ["pageA"] }
        (.failure (some "HTTP error 500 while fetching workflows."))).1 =
      { workflows := [], isLoading := false,
        error := some (errorMessage (some "HTTP error 500 while fetching workflows.")),
        totalCount := 120, currentPage := 2, nextLink := some "pageB",
        pageUrlHistory := ["pageA", "pageB"] } := by
  decide

/-- C2 (code evaluation): accepting a previous-page trigger commits the pop
of the cursor stack and the page decrement before the fetch, and a failed
fetch does not roll them back: from page 2 with stack [pageA, pageB], a
failed previous-page trigger ends at page 1 with stack [pageA] instead of
restoring the pre-trigger state. -/
theorem prevPage_failure_commits_pagination :
    (handlePrevPage
        { workflows := [], isLoading := false, error := none, totalCount := 120,
          currentPage := 2, nextLink := none, pageUrlHistory := ["pageA", "pageB"] }
        (.failure (some "HTTP error 500 while fetching workflows."))).1 =
      { workflows := [], isLoading := false,
        error := some (errorMessage (some "HTTP error 500 while fetching workflows.")),
        totalCount := 120, currentPage := 1, nextLink := none,
        pageUrlHistory := ["pageA"] } := by
  decide

/-- C4: Every controller transition (new query, next page, previous page,
with the fetch succeeding or failing, and including the dropped-trigger
cases) preserves the consistency invariant that the cursor stack length
equals the current page number. -/
theorem step_preserves_stack_length_eq_page (s : AppState) (t : Trigger)
    (h : s.pageUrlHistory.length = s.currentPage) :
    ((step s t).1).pageUrlHistory.length = ((step s t).1).currentPage := by
  cases t with
  | newQuery r =>
      cases r with
      | success data => simp [step, applyNewQuery, fetchPageData]
      | failure m => simpa [step, applyNewQuery, fetchPageData] using h
  | nextPage r =>
      cases hnl : s.nextLink with
      | none => simpa [step, handleNextPage, hnl] using h
      | some link =>
          by_cases hguard : link = "" ∨ s.isLoading
          · simpa [step, handleNextPage, hnl, hguard] using h
          · cases r with
            | success data =>
                simp [step, handleNextPage, hnl, hguard, fetchPageData, h]
            | failure m =>
                simp [step, handleNextPage, hnl, hguard, fetchPageData, h]
  | prevPage r =>
      by_cases hguard : s.currentPage ≤ 1 ∨ s.isLoading
      · simpa [step, handlePrevPage, hguard] using h
      · cases hlast : s.pageUrlHistory.dropLast.getLast? with
        | none => simpa [step, handlePrevPage, hguard, hlast] using h
        | some prevPageUrl =>
            by_cases hempty : prevPageUrl = ""
            · simpa [step, handlePrevPage, hguard, hlast, hempty] using h
            · cases r with
              | success data =>
                  simp [step, handlePrevPage, hguard, hlast, hempty, fetchPageData, h]
              | failure m =>
                  simp [step, handlePrevPage, hguard, hlast, hempty, fetchPageData, h]

/-- A concrete consistent state, for the C4 witness. -/
def consistentState : AppState :=
  { workflows := [], isLoading := false, error := none, totalCount := 120,
    currentPage := 2, nextLink := some "C", pageUrlHistory := ["A", "B"] }

/-- Witness for C4 at a concrete consistent state and a concrete trigger. -/
theorem step_preserves_stack_length_eq_page_witness :
    consistentState.pageUrlHistory.length = consistentState.currentPage ∧
    ((step consistentState (.nextPage (.failure none))).1).pageUrlHistory.length =
      ((step consistentState (.nextPage (.failure none))).1).currentPage :=
  ⟨rfl, step_preserves_stack_length_eq_page consistentState (.nextPage (.failure none)) rfl⟩

/-- A status clause is never a category clause (the first characters
differ). -/
theorem statusClause_ne_categoryClause (st n : Int) :
    statusClause st ≠ categoryClause n := by
  intro h
  have hd : (statusClause st).data.head? = (categoryClause n).data.head? :=
    congrArg (fun x => x.data.head?) h
  rw [show (statusClause st).data.head? = some 's' from rfl,
      show (categoryClause n).data.head? = some 'c' from rfl] at hd
  simp at hd

/-- A search clause is never a category clause (the first characters
differ). -/
theorem searchClause_ne_categoryClause (s : String) (n : Int) :
    searchClause s ≠ categoryClause n := by
  intro h
  have hd : (searchClause s).data.head? = (categoryClause n).data.head? :=
    congrArg (fun x => x.data.head?) h
  rw [show (searchClause s).data.head? = some '(' from rfl,
      show (categoryClause n).data.head? = some 'c' from rfl] at hd
  simp at hd

/-- C6: With `category` null, and likewise with `category = -1`, the list of
built filter clauses contains no category clause at all, for any search
text and status filter. -/
theorem filterClauses_omit_category (searchTerm : String) (status : Option Int)
    (category : Option Int) (h : category = none ∨ category = some (-1)) :
    ∀ clause ∈ buildFilterClauses searchTerm category status,
      ∀ n : Int, clause ≠ categoryClause n := by
  intro clause hc n
  rcases h with h | h <;> subst h <;>
    cases status with
    | none =>
        by_cases hs : searchTerm = ""
        · simp [buildFilterClauses, hs] at hc
        · simp [buildFilterClauses, hs] at hc
          rw [hc]
          exact searchClause_ne_categoryClause searchTerm n
    | some st =>
        by_cases hs : searchTerm = ""
        · simp [buildFilterClauses, hs, show ¬ (0 : Int) ≤ -1 from by decide] at hc
          rw [hc]
          exact statusClause_ne_categoryClause st n
        · simp [buildFilterClauses, hs, show ¬ (0 : Int) ≤ -1 from by decide] at hc
          rcases hc with hc | hc
          · rw [hc]
            exact statusClause_ne_categoryClause st n
          · rw [hc]
            exact searchClause_ne_categoryClause searchTerm n

/-- Witness for C6 at a concrete filter set. -/
theorem filterClauses_omit_category_witness :
    ((none : Option Int) = none ∨ (none : Option Int) = some (-1)) ∧
    statusClause 1 ≠ categoryClause 1 :=
  ⟨Or.inl rfl,
    filterClauses_omit_category "flow" (some 1) none (Or.inl rfl)
      (statusClause 1) (by simp [buildFilterClauses]) 1⟩

/-- C7: With a null sort key the orderby parameter is exactly
`modifiedon desc`; with a non-null key (a field identifier, hence
non-empty) it is the key followed by `asc` or `desc` according to the
direction. -/
theorem buildOrderby_spec (d : SortDirection) (k : String) (hk : k ≠ "") :
    buildOrderby { key := none, direction := d } = "modifiedon desc" ∧
    buildOrderby { key := some k, direction := .ascending } = k ++ " asc" ∧
    buildOrderby { key := some k, direction := .descending } = k ++ " desc" := by
  refine ⟨rfl, ?_, ?_⟩ <;>
  · simp [buildOrderby, hk]
    rw [String.append_assoc]
    exact rfl

/-- Witness for C7 at a concrete sort key. -/
theorem buildOrderby_spec_witness :
    ("name" : String) ≠ "" ∧
    buildOrderby { key := some "name", direction := .ascending } = "name" ++ " asc" :=
  ⟨by decide, (buildOrderby_spec .descending "name" (by decide)).2.1⟩

/-- Sanitization doubles every quote: the sanitized term holds exactly
twice as many quote characters as the original. -/
theorem sanitizeSearch_count (s : List Char) :
    (sanitizeSearch s).count quoteChar = 2 * s.count quoteChar := by
  induction s with
  | nil => simp [sanitizeSearch]
  | cons c rest ih =>
      by_cases hc : c = quoteChar
      · simp [sanitizeSearch, hc, ih, List.count_cons]
        ring
      · simp [sanitizeSearch, hc, ih, List.count_cons]

/-- Round trip through the quoted-literal scanner: the sanitized term
followed by the closing delimiter is consumed as one whole literal that
decodes back to the original term, with nothing left over. In particular no
interior quote of the sanitized term terminates the literal early. -/
theorem scanQuoted_sanitize (s : List Char) :
    scanQuoted (sanitizeSearch s ++ [quoteChar]) = some (s, []) := by
  induction s with
  | nil => simp [sanitizeSearch, scanQuoted]
  | cons c rest ih =>
      by_cases hc : c = quoteChar
      · subst hc
        simp [sanitizeSearch, scanQuoted, ih]
      · obtain ⟨t, ts, htail⟩ : ∃ t ts, sanitizeSearch rest ++ [quoteChar] = t :: ts := by
          cases hsr : sanitizeSearch rest with
          | nil => exact ⟨quoteChar, [], by simp⟩
          | cons a l => exact ⟨a, l ++ [quoteChar], by simp⟩
        have hlist : sanitizeSearch (c :: rest) ++ [quoteChar] = c :: t :: ts := by
          simp [sanitizeSearch, hc, htail]
        rw [hlist, scanQuoted]
        rw [if_neg hc, ← htail, ih]
        rfl

/-- C5: For a search text containing at least one single quote, the built
search clause interpolates the sanitized term, in which each quote is
doubled (the quote count is exactly twice the original); scanning the
sanitized term with the quoted-literal reader consumes it entirely and
decodes the original text, so the clause cannot be terminated or split at
any of those quote characters. -/
theorem searchClause_escapes_quotes (s : String) (_h : 1 ≤ s.data.count quoteChar) :
    (sanitizeSearch s.data).count quoteChar = 2 * s.data.count quoteChar ∧
    scanQuoted (sanitizeSearch s.data ++ [quoteChar]) = some (s.data, []) ∧
    (searchClause s).data =
      "(contains(name, ".data ++
        (quoteChar :: (sanitizeSearch s.data ++ [quoteChar])) ++
        ") or contains(uniquename, ".data ++
        (quoteChar :: (sanitizeSearch s.data ++ [quoteChar])) ++
        "))".data := by
  refine ⟨sanitizeSearch_count s.data, scanQuoted_sanitize s.data, ?_⟩
  simp [searchClause, squote, String.data_append, List.append_assoc]

/-- Witness for C5 at a concrete search text containing a quote. -/
theorem searchClause_escapes_quotes_witness :
    1 ≤ (String.mk ['a', quoteChar, 'b']).data.count quoteChar ∧
    scanQuoted (sanitizeSearch (String.mk ['a', quoteChar, 'b']).data ++ [quoteChar]) =
      some ((String.mk ['a', quoteChar, 'b']).data, []) :=
  ⟨by decide,
    (searchClause_escapes_quotes (String.mk ['a', quoteChar, 'b']) (by decide)).2.1⟩

/-- C8 (counterexample): a successful credential response whose body is a
JSON object with neither a `token` nor an `accessToken` field is not an
error: `getAuthToken` falls through and yields the trimmed raw body itself
as the token. This refutes the part of the claim stating that any other
shape is an error. -/
theorem parseAuthToken_other_shape_no_error :
    parseAuthToken "\x7b\"id\":7\x7d" (some (Json.obj [("id", Json.num 7)])) =
      "\x7b\"id\":7\x7d" := rfl

/-- C8 (amended): a plain-text (non-JSON) body yields the body trimmed of
surrounding whitespace; a JSON object body yields the truthy string field
`token`, or else the truthy string field `accessToken` (first match wins);
every other shape falls back to the trimmed raw body treated as the token,
rather than being an error. The final conjuncts check the concrete examples
of the specification. -/
theorem parseAuthToken_spec :
    (∀ text : String, parseAuthToken text none = trimString text) ∧
    (∀ (text : String) (fields : List (String × Json)) (t : String),
        (Json.obj fields).getTokenField "token" = some t →
        parseAuthToken text (some (.obj fields)) = t) ∧
    (∀ (text : String) (fields : List (String × Json)) (t : String),
        (Json.obj fields).getTokenField "token" = none →
        (Json.obj fields).getTokenField "accessToken" = some t →
        parseAuthToken text (some (.obj fields)) = t) ∧
    (∀ (text : String) (fields : List (String × Json)),
        (Json.obj fields).getTokenField "token" = none →
        (Json.obj fields).getTokenField "accessToken" = none →
        parseAuthToken text (some (.obj fields)) = trimString text) ∧
    (∀ (text : String) (j : Json), j.objectTruthy = false →
        parseAuthToken text (some j) = trimString text) ∧
    parseAuthToken "abc123\n" none = "abc123" ∧
    parseAuthToken "\x7b\"accessToken\":\"xyz\"\x7d"
      (some (.obj [("accessToken", Json.str "xyz")])) = "xyz" ∧
    parseAuthToken "\x7b\"token\":\"t1\"\x7d"
      (some (.obj [("token", Json.str "t1")])) = "t1" := by
  refine ⟨fun text => rfl, ?_, ?_, ?_, ?_, by decide, rfl, rfl⟩
  · intro text fields t h
    simp [parseAuthToken, Json.objectTruthy, h]
  · intro text fields t h1 h2
    simp [parseAuthToken, Json.objectTruthy, h1, h2]
  · intro text fields h1 h2
    simp [parseAuthToken, Json.objectTruthy, h1, h2]
  · intro text j h
    simp [parseAuthToken, h]

/-- Witness for C8 at concrete response bodies. -/
theorem parseAuthToken_spec_witness :
    (Json.obj [("token", Json.str "t1")]).getTokenField "token" = some "t1" ∧
    parseAuthToken "raw" (some (.obj [("token", Json.str "t1")])) = "t1" :=
  ⟨rfl, parseAuthToken_spec.2.1 "raw" [("token", Json.str "t1")] "t1" rfl⟩
